import Mathlib

/-!
Verification of the PulseDev CCM core services against their
natural-language specification.  The Python services under
`apps/ccm-api/services/` are shallowly embedded: timestamps are modelled
as natural numbers (seconds), Python floats as rationals, dictionaries as
association lists, and fallible operations as `Except`/`Option` values.
Each embedded definition is named after the Python function it translates.
-/

/-- JSON-like structured payload values, modelling the `payload` dicts the
Python services pass to `json.dumps`/`json.loads`. -/
inductive Json where
  | null : Json
  | jbool (b : Bool) : Json
  | num (q : ℚ) : Json
  | str (s : String) : Json
  | arr (xs : List Json) : Json
  | obj (fields : List (String × Json)) : Json

namespace EncryptionService

/-- Modelled from the spec: `cryptography.fernet.Fernet` and Python's
`json` module are external libraries, not code of this repository
(`encryption_service.py` only wraps them).  §4.1 of the spec describes the
crypto box as an authenticated symmetric cipher over structured payloads:
a token produced with a key decrypts back to the original payload under
that key, and decryption with a different key, or of a malformed token,
fails.  The token is modelled symbolically: `token k p` stands for the
base64 text of the Fernet ciphertext of `json.dumps p` under key `k`
(base64 and `json.dumps` are injective, so the plaintext payload is a
faithful representative of the carried bytes), and `malformed s` stands
for any stored text that is not a well-formed Fernet token. -/
inductive FernetToken where
  | token (key : ℕ) (payload : Json) : FernetToken
  | malformed (raw : String) : FernetToken

/-- Modelled from the spec: `EncryptionService.encrypt_context`
(`encryption_service.py` lines 25-32) serialises the payload with
`json.dumps`, encrypts with the Fernet cipher of the derived key, and
base64-encodes the result; in the symbolic model this packages the
payload with the key identity. -/
def encrypt_context (key : ℕ) (data : Json) : FernetToken :=
  .token key data

/-- Modelled from the spec: `EncryptionService.decrypt_context`
(`encryption_service.py` lines 34-41) base64-decodes the stored text,
decrypts with the Fernet cipher of the derived key, and parses the JSON;
any failure in that chain is re-raised as a generic decryption exception.
In the symbolic model decryption succeeds exactly when the token is
well formed and was produced with the same key. -/
def decrypt_context (key : ℕ) : FernetToken → Except String Json
  | .token k payload =>
      if k = key then .ok payload else .error "Decryption failed"
  | .malformed _ => .error "Decryption failed"

end EncryptionService

/-- A developer-activity event (`models/events.py`, `ContextEvent`).
`payload` holds the string-valued payload entries (accessed in the Python
services with `payload.get(...)`), `payloadFiles` holds the list-valued
`payload["files"]` entry used by the commit-quality heuristic (empty when
absent), and `timestamp` is the parsed ISO timestamp in seconds. -/
structure ContextEvent where
  sessionId : String
  agent : String
  type : String
  payload : List (String × String)
  payloadFiles : List String
  timestamp : ℕ
deriving DecidableEq, Repr

/-- `payload.get(key)`: first value stored under `key`, `none` when the
key is absent. -/
def payloadGet (p : List (String × String)) (key : String) : Option String :=
  (p.find? (fun kv => kv.1 = key)).map (fun kv => kv.2)

/-- `payload.get(key)` followed by Python truthiness (`if file_path:`):
a missing key and an empty string are both rejected. -/
def truthyGet (p : List (String × String)) (key : String) : Option String :=
  match payloadGet p key with
  | some v => if v = "" then none else some v
  | none => none

/-- The shared context-switch loop of `FlowService._count_context_switches`
(`flow_service.py` lines 107-119) and
`EnergyService._calculate_context_stability` (`energy_service.py` lines
133-143): one step of `for event in events` carrying the
`(last_file, switches)` loop state. -/
def switchStep (st : Option String × ℕ) (e : ContextEvent) : Option String × ℕ :=
  if e.type = "file_modified" ∨ e.type = "editor_focus" then
    match truthyGet e.payload "file_path" with
    | some p => if some p ≠ st.1 then (some p, st.2 + 1) else st
    | none => st
  else st

namespace FlowService

/-- `FlowService._count_context_switches` (`flow_service.py` lines
107-119): walk the events with `last_file = None`, `switches = 0`,
incrementing whenever a `file_modified`/`editor_focus` event carries a
truthy `file_path` different from the previous one. -/
def count_context_switches (events : List ContextEvent) : ℕ :=
  (events.foldl switchStep (none, 0)).2

/-- The file paths of the window's `file_modified`/`editor_focus` events
that carry a truthy `file_path`, in event order (the paths the
switch-counting loop looks at). -/
def touchedPaths (events : List ContextEvent) : List String :=
  events.filterMap (fun e =>
    if e.type = "file_modified" ∨ e.type = "editor_focus" then
      truthyGet e.payload "file_path"
    else none)

/-- Modelled from the spec: §4.3 describes `contextSwitches` as "the
count of distinct file paths touched across consecutive
`file_modified`/`editor_focus` events (a switch is counted only when the
touched path differs from the immediately preceding one)".  `chainCount
last ps` counts the entries of `ps` that differ from the immediately
preceding touched path, starting from preceding path `last`. -/
def chainCount : Option String → List String → ℕ
  | _, [] => 0
  | last, p :: rest =>
      (if some p ≠ last then 1 else 0) + chainCount (some p) rest

end FlowService

namespace FlowOrchestrator

/-- `FlowOrchestrator.calculate_context_switches` (`flow_orchestrator.py`
lines 55-66) runs `SELECT COUNT(DISTINCT file_path)` over the session's
`editor_focus` rows in the time window: given the focused file paths of
that window, it returns the number of distinct paths. -/
def calculate_context_switches (focusPaths : List String) : ℕ :=
  focusPaths.dedup.length

end FlowOrchestrator

namespace AIService

/-- The file paths of the window's `file_modified` events with a truthy
`file_path`, in event order: the multiset of keys/appends that
`detect_stuck_state` accumulates in its `file_edits` dict. -/
def fileEditPaths (events : List ContextEvent) : List String :=
  events.filterMap (fun e =>
    if e.type = "file_modified" then truthyGet e.payload "file_path" else none)

/-- First-occurrence key order of a Python dict built by appending:
the keys of `file_edits` in iteration order. -/
def dictKeys (l : List String) : List String :=
  go l []
where
  go : List String → List String → List String
  | [], _ => []
  | p :: rest, seen =>
      if p ∈ seen then go rest seen else p :: go rest (p :: seen)

/-- Result of `AIService.detect_stuck_state`: the three stuck-state
patterns with their pattern-specific fields. -/
inductive StuckResult where
  | loopingEdits (file : String) (editCount : ℕ) (confidence : ℚ) : StuckResult
  | repeatedErrors (failedTestCount : ℕ) (confidence : ℚ) : StuckResult
  | idleWithFailures (confidence : ℚ) : StuckResult

/-- `AIService.detect_stuck_state` (`ai_service.py` lines 129-170).
Pattern 1: group `file_modified` events by truthy `file_path`; the first
file (dict iteration order) with more than 5 edits yields
`looping_edits`.  Pattern 2: more than 3 `test_run` events with payload
status `failed` yield `repeated_errors`.  Pattern 3: some `test_run`
events, fewer than 5 events in total, and a failed last test yield
`idle_with_failures`.  Otherwise no stuck state. -/
def detect_stuck_state (events : List ContextEvent) : Option StuckResult :=
  let paths := fileEditPaths events
  match (dictKeys paths).find? (fun p => paths.count p > 5) with
  | some p =>
      some (.loopingEdits p (paths.count p) (min ((paths.count p : ℚ) / 10) 1))
  | none =>
      let testEvents := events.filter (fun e => e.type = "test_run")
      let failedTests := testEvents.filter
        (fun e => payloadGet e.payload "status" = some "failed")
      if failedTests.length > 3 then
        some (.repeatedErrors failedTests.length
          (min ((failedTests.length : ℚ) / 5) 1))
      else
        match testEvents.getLast? with
        | some lastTest =>
            if events.length < 5 ∧
                payloadGet lastTest.payload "status" = some "failed" then
              some (.idleWithFailures (8 / 10))
            else none
        | none => none

/-- Looping-edits condition: some file path carries more than 5
`file_modified` events in the window. -/
def hasLoopingFile (events : List ContextEvent) : Prop :=
  ∃ p ∈ fileEditPaths events, (fileEditPaths events).count p > 5

/-- The number of `test_run` events with payload status `failed`. -/
def failedTestCount (events : List ContextEvent) : ℕ :=
  ((events.filter (fun e => e.type = "test_run")).filter
    (fun e => payloadGet e.payload "status" = some "failed")).length

/-- Idle-with-failures condition: the window has some `test_run` event,
fewer than 5 events in total, and the most recent `test_run` failed. -/
def idleCond (events : List ContextEvent) : Prop :=
  ∃ lt, (events.filter (fun e => e.type = "test_run")).getLast? = some lt ∧
    events.length < 5 ∧ payloadGet lt.payload "status" = some "failed"

end AIService

namespace FlowOrchestrator

/-- Live flow state of one session (`flow_orchestrator.py`, dataclass
`FlowState`); times in seconds, duration in whole minutes. -/
structure FlowState where
  session_id : String
  is_in_flow : Bool
  flow_start : Option ℕ
  flow_duration : ℕ
  keystroke_rhythm : ℚ
  context_switches : ℕ
  test_intensity : ℚ
  focus_score : ℚ

/-- Side effects fired by the orchestrator's triggers: inserting a
summary `context_nodes` row (with the flow-end payload fields when
present) and asking the notification gate to snooze or re-enable. -/
inductive SideEffect where
  | persistEvent (event_type : String) (duration_minutes : Option ℕ)
      (peak_focus : Option ℚ) : SideEffect
  | snoozeNotifications (snooze : Bool) : SideEffect

/-- The per-evaluation metrics `detect_flow_state` reads from the store
(`analyze_keystroke_rhythm`, `calculate_context_switches`,
`calculate_test_intensity`), abstracted as inputs. -/
structure FlowMetrics where
  rhythm : ℚ
  contextSwitches : ℕ
  testIntensity : ℚ

/-- The focus-score combination of `FlowOrchestrator.detect_flow_state`
(`flow_orchestrator.py` lines 89-93):
`rhythm*0.4 + max(0, 1 - switches/5)*0.3 + test_intensity*0.3`. -/
def focusScore (m : FlowMetrics) : ℚ :=
  m.rhythm * (2 / 5) +
    max 0 (1 - (m.contextSwitches : ℚ) / 5) * (3 / 10) +
    m.testIntensity * (3 / 10)

/-- `is_in_flow = focus_score > 0.7 and rhythm > 0.6`
(`flow_orchestrator.py` line 95). -/
def isInFlow (m : FlowMetrics) : Bool :=
  decide (focusScore m > 7 / 10) && decide (m.rhythm > 3 / 5)

/-- `FlowOrchestrator._trigger_flow_start` (lines 129-140): insert a
`flow_start` context node, then request notification snoozing. -/
def trigger_flow_start : List SideEffect :=
  [.persistEvent "flow_start" none none, .snoozeNotifications true]

/-- `FlowOrchestrator._trigger_flow_end` (lines 142-157): insert a
`flow_end` context node carrying `duration_minutes = (now - flow_start)
in whole minutes` and `peak_focus = focus_score`, then request
notification re-enabling.  `flow_start` is always set on a state with
`is_in_flow` (the only states this is called on). -/
def trigger_flow_end (now : ℕ) (fs : FlowState) : List SideEffect :=
  [.persistEvent "flow_end" (some ((now - fs.flow_start.getD now) / 60))
      (some fs.focus_score),
   .snoozeNotifications false]

/-- `FlowOrchestrator.detect_flow_state` (`flow_orchestrator.py` lines
82-127) for one session: from the previous live entry
(`active_sessions.get(session_id)`), the current time and the metrics of
this evaluation, produce the new live entry (always written back to
`active_sessions`) and the side effects fired during the evaluation. -/
def detect_flow_state (current : Option FlowState) (sid : String) (now : ℕ)
    (m : FlowMetrics) : FlowState × List SideEffect :=
  let inFlow := isInFlow m
  if inFlow then
    match current with
    | some cf =>
        if cf.is_in_flow then
          ({ session_id := sid, is_in_flow := true, flow_start := cf.flow_start,
             flow_duration := (now - cf.flow_start.getD now) / 60,
             keystroke_rhythm := m.rhythm, context_switches := m.contextSwitches,
             test_intensity := m.testIntensity, focus_score := focusScore m }, [])
        else
          ({ session_id := sid, is_in_flow := true, flow_start := some now,
             flow_duration := 0,
             keystroke_rhythm := m.rhythm, context_switches := m.contextSwitches,
             test_intensity := m.testIntensity, focus_score := focusScore m },
           trigger_flow_start)
    | none =>
        ({ session_id := sid, is_in_flow := true, flow_start := some now,
           flow_duration := 0,
           keystroke_rhythm := m.rhythm, context_switches := m.contextSwitches,
           test_intensity := m.testIntensity, focus_score := focusScore m },
         trigger_flow_start)
  else
    let effects :=
      match current with
      | some cf => if cf.is_in_flow then trigger_flow_end now cf else []
      | none => []
    ({ session_id := sid, is_in_flow := false, flow_start := none,
       flow_duration := 0,
       keystroke_rhythm := m.rhythm, context_switches := m.contextSwitches,
       test_intensity := m.testIntensity, focus_score := focusScore m },
     effects)

/-- Run a sequence of periodic flow evaluations (time, metrics) for one
session, collecting the fired side effects in order. -/
def runFlow (sid : String) : Option FlowState → List (ℕ × FlowMetrics) →
    Option FlowState × List SideEffect
  | st, [] => (st, [])
  | st, (now, m) :: rest =>
      let step := detect_flow_state st sid now m
      let tail := runFlow sid (some step.1) rest
      (tail.1, step.2 ++ tail.2)

end FlowOrchestrator

namespace FlowService

/-- Live flow session record (`models/events.py`, `FlowSession`); times
in seconds. -/
structure FlowSession where
  session_id : String
  start_time : ℕ
  end_time : Option ℕ := none
  keystrokes : ℕ := 0
  context_switches : ℕ := 0
  test_runs : ℕ := 0
  commits : ℕ := 0
  energy_score : Option ℚ := none

/-- `FlowService._calculate_energy_score` (`flow_service.py` lines
88-105): duration score capped at 10, productivity from test runs,
commits and switches, keystroke score capped at 5, total capped at
100.  `end_time` is always set when this is called. -/
def calculate_energy_score (s : FlowSession) : ℚ :=
  let duration_hours : ℚ := ((s.end_time.getD s.start_time : ℚ) - s.start_time) / 3600
  let duration_score := min (duration_hours * 2) 10
  let productivity_score : ℚ :=
    (s.test_runs : ℚ) * 2 + (s.commits : ℚ) * 5 +
      (max 0 (10 - (s.context_switches : ℤ)) : ℤ)
  let keystroke_score := min ((s.keystrokes : ℚ) / 1000) 5
  min (duration_score + productivity_score + keystroke_score) 100

/-- `FlowService._end_flow_session` (`flow_service.py` lines 71-86) for
the live-session table modelled as an association list: when the session
is live, set `end_time = now`, attach an energy score only when the
session lasted more than 0.1 hours, remove the entry from the table, and
return the completed session; otherwise return the table unchanged and
`none`. -/
def end_flow_session (table : List (String × FlowSession)) (sid : String)
    (now : ℕ) : List (String × FlowSession) × Option FlowSession :=
  match table.find? (fun kv => kv.1 = sid) with
  | some kv =>
      let s1 := { kv.2 with end_time := some now }
      let duration_hours : ℚ := ((now : ℚ) - s1.start_time) / 3600
      let s2 :=
        if duration_hours > 1 / 10 then
          { s1 with energy_score := some (calculate_energy_score s1) }
        else s1
      (table.filter (fun kv2 => ¬ kv2.1 = sid), some s2)
  | none => (table, none)

end FlowService

namespace TemporalContextGraph

/-- A stored row of the `context_nodes` table
(`context_graph_service.py`, `store_context_node`): the payload is kept
encrypted at rest. -/
structure StoredNode where
  id : ℕ
  session_id : String
  agent : String
  event_type : String
  encrypted_payload : EncryptionService.FernetToken
  timestamp : ℕ
  file_path : Option String

/-- A stored row of the `context_relationships` table
(`create_relationship`). -/
structure StoredEdge where
  from_node_id : ℕ
  to_node_id : ℕ
  relationship_type : String
  weight : ℚ
  created_at : ℕ

/-- `ORDER BY cn.timestamp DESC`: node `a` sorts before `b` when `a` is
at least as new. -/
def newerEq (a b : StoredNode) : Prop :=
  b.timestamp ≤ a.timestamp

instance : DecidableRel newerEq := fun a b =>
  inferInstanceAs (Decidable (b.timestamp ≤ a.timestamp))

instance : IsTotal StoredNode newerEq :=
  ⟨fun a b => le_total b.timestamp a.timestamp⟩

instance : IsTrans StoredNode newerEq :=
  ⟨fun _ _ _ h1 h2 => le_trans h2 h1⟩

/-- One decoded entry of the list `get_temporal_context` returns. -/
structure CtxRow where
  id : ℕ
  agent : String
  type : String
  payload : Json
  timestamp : ℕ
  file_path : Option String
  relationship : Option String
  weight : Option ℚ

/-- The `LEFT JOIN context_relationships cr ON cn.id = cr.from_node_id`
of `get_temporal_context`: a node with outgoing edges produces one row
per edge; a node without outgoing edges produces one row with null
relationship columns. -/
def joinRows (edges : List StoredEdge) (n : StoredNode) :
    List (StoredNode × Option StoredEdge) :=
  match edges.filter (fun e => e.from_node_id = n.id) with
  | [] => [(n, none)]
  | es => es.map (fun e => (n, some e))

/-- Decode one joined row (`get_temporal_context` lines 59-74): decrypt
the payload and build the result entry; a decryption failure skips the
row (`except ...: continue`). -/
def decodeRow (key : ℕ) (row : StoredNode × Option StoredEdge) : Option CtxRow :=
  match EncryptionService.decrypt_context key row.1.encrypted_payload with
  | .ok payload =>
      some { id := row.1.id, agent := row.1.agent, type := row.1.event_type,
             payload := payload, timestamp := row.1.timestamp,
             file_path := row.1.file_path,
             relationship := row.2.map (fun e => e.relationship_type),
             weight := row.2.map (fun e => e.weight) }
  | .error _ => none

/-- The joined, ordered row set of the query in `get_temporal_context`
(lines 50-56): session's nodes with `timestamp >= cutoff`, ordered by
timestamp descending, left-joined to their outgoing relationship edges. -/
def queryRows (nodes : List StoredNode) (edges : List StoredEdge)
    (sid : String) (cutoff : ℕ) : List (StoredNode × Option StoredEdge) :=
  (((nodes.filter (fun n => n.session_id = sid ∧ cutoff ≤ n.timestamp)).insertionSort
      newerEq).map (joinRows edges)).flatten

/-- `TemporalContextGraph.get_temporal_context`
(`context_graph_service.py` lines 44-76): query the window's rows newest
first and decode them, silently skipping rows whose payload fails to
decrypt.  `cutoff = now - time_window_minutes * 60` in seconds. -/
def get_temporal_context (nodes : List StoredNode) (edges : List StoredEdge)
    (key : ℕ) (sid : String) (now : ℕ) (time_window_minutes : ℕ) : List CtxRow :=
  (queryRows nodes edges sid (now - time_window_minutes * 60)).filterMap
    (decodeRow key)

/-- The whole stored graph: both tables. -/
structure GraphStore where
  nodes : List StoredNode
  edges : List StoredEdge

/-- One bulk `DELETE` statement of `auto_wipe_old_data`. -/
inductive DeleteOp where
  | edgesOlderThan (cutoff : ℕ) : DeleteOp
  | nodesOlderThan (cutoff : ℕ) : DeleteOp

/-- Apply one delete statement: edges go by `created_at`, nodes by
`timestamp`. -/
def applyDelete (s : GraphStore) : DeleteOp → GraphStore
  | .edgesOlderThan cutoff =>
      { s with edges := s.edges.filter (fun e => ¬ e.created_at < cutoff) }
  | .nodesOlderThan cutoff =>
      { s with nodes := s.nodes.filter (fun n => ¬ n.timestamp < cutoff) }

/-- The statement order of `auto_wipe_old_data`
(`context_graph_service.py` lines 108-126): old relationships are
deleted first, then old nodes. -/
def wipeScript (cutoff : ℕ) : List DeleteOp :=
  [.edgesOlderThan cutoff, .nodesOlderThan cutoff]

/-- `TemporalContextGraph.auto_wipe_old_data`: run the two delete
statements in order against the store; `cutoff = now - hours * 3600`. -/
def auto_wipe_old_data (s : GraphStore) (cutoff : ℕ) : GraphStore :=
  (wipeScript cutoff).foldl applyDelete s

end TemporalContextGraph

namespace EnergyService

/-- Whether `sub` is a prefix of the character list. -/
def prefixOf : List Char → List Char → Bool
  | [], _ => true
  | _ :: _, [] => false
  | a :: as, b :: bs => a = b && prefixOf as bs

/-- Whether `sub` occurs as a contiguous run of the character list. -/
def containsSub (sub : List Char) : List Char → Bool
  | [] => sub.isEmpty
  | c :: rest => prefixOf sub (c :: rest) || containsSub sub rest

/-- Case-insensitive substring test: `w in s.lower()` for a lowercase
needle `w`. -/
def strContains (s w : String) : Bool :=
  containsSub w.toList s.toLower.toList

/-- `'w' in str(e.payload).lower()`: whether the word occurs anywhere in
the payload's printed form (keys, string values or file entries). -/
def payloadContains (e : ContextEvent) (w : String) : Bool :=
  e.payload.any (fun kv => strContains kv.1 w || strContains kv.2 w) ||
    e.payloadFiles.any (fun f => strContains f w)

/-- The pairing loop of `EnergyService._calculate_flow_time`
(`energy_service.py` lines 76-89), after sorting: carry the pending
`flow_start` timestamp, add `(end - start)/3600` hours at each
`flow_end` that follows a start. -/
def flowTimeGo : Option ℕ → List ContextEvent → ℚ
  | _, [] => 0
  | fs, e :: rest =>
      if e.type = "flow_start" then flowTimeGo (some e.timestamp) rest
      else if e.type = "flow_end" then
        match fs with
        | some s => ((e.timestamp : ℚ) - (s : ℚ)) / 3600 + flowTimeGo none rest
        | none => flowTimeGo none rest
      else flowTimeGo fs rest

/-- `EnergyService._calculate_flow_time`: pair `flow_start`/`flow_end`
events in timestamp order and total the hours spent in flow. -/
def calculate_flow_time (flow_events : List ContextEvent) : ℚ :=
  flowTimeGo none
    (flow_events.insertionSort (fun a b => a.timestamp ≤ b.timestamp))

/-- `EnergyService._calculate_test_pass_rate` (`energy_service.py` lines
91-99): neutral 50 with no test events, else the percentage of events
with payload status `passed`. -/
def calculate_test_pass_rate (test_events : List ContextEvent) : ℚ :=
  if test_events.length = 0 then 50
  else
    ((test_events.countP
        (fun e => payloadGet e.payload "status" = some "passed") : ℚ) /
      (test_events.length : ℚ)) * 100

/-- Per-commit score of `EnergyService._calculate_commit_quality` (lines
108-129): base 50, bonuses for a descriptive message, action keywords,
associated tests and few files, capped at 100. -/
def commitScore (commit : ContextEvent) : ℚ :=
  let message := (payloadGet commit.payload "message").getD ""
  let files := commit.payloadFiles
  let s1 : ℚ := 50
  let s2 := if message.length > 20 then s1 + 10 else s1
  let s3 :=
    if ["fix", "add", "update", "refactor"].any
        (fun w => strContains message w) then s2 + 10 else s2
  let s4 := if files.any (fun f => strContains f "test") then s3 + 15 else s3
  let s5 :=
    if files.length ≤ 3 then s4 + 10
    else if files.length > 10 then s4 - 10
    else s4
  min s5 100

/-- `EnergyService._calculate_commit_quality` (lines 101-131): neutral
50 with no commits, else the average per-commit score. -/
def calculate_commit_quality (commit_events : List ContextEvent) : ℚ :=
  if commit_events.length = 0 then 50
  else (commit_events.map commitScore).sum / (commit_events.length : ℚ)

/-- `EnergyService._calculate_context_stability` (lines 133-150): count
file switches with the shared loop; 100 with no switches, else
`max(0, 100 - switches*2)`. -/
def calculate_context_stability (events : List ContextEvent) : ℚ :=
  let file_switches := (events.foldl switchStep (none, 0)).2
  if file_switches = 0 then 100
  else max 0 (100 - (file_switches : ℚ) * 2)

/-- `EnergyService._calculate_error_frequency` (lines 152-163): no
penalty without error-like events, else `min(rate * 500, 100)` with
`rate = errors / max(len(events), 1)`. -/
def calculate_error_frequency (events : List ContextEvent) : ℚ :=
  let error_events := events.filter
    (fun e => payloadContains e "error" || payloadContains e "failed")
  if error_events.length = 0 then 0
  else
    min (((error_events.length : ℚ) / ((max events.length 1 : ℕ) : ℚ)) * 500) 100

/-- `EnergyService._calculate_distraction_rate` (lines 165-175): no
penalty without browser/blur events, else `min(rate * 300, 100)`. -/
def calculate_distraction_rate (events : List ContextEvent) : ℚ :=
  let distraction_events := events.filter
    (fun e => e.agent = "browser" || e.type = "editor_blur")
  if distraction_events.length = 0 then 0
  else
    min (((distraction_events.length : ℚ) / ((max events.length 1 : ℕ) : ℚ)) * 300)
      100

/-- Hour-of-day bucket of an event (`datetime.fromisoformat(...).hour`). -/
def eventHour (e : ContextEvent) : ℕ :=
  e.timestamp / 3600 % 24

/-- The trend loop of `_calculate_productivity_momentum` (lines
195-201): walk the sorted bucket hours, +1 when the bucket count grows,
-1 otherwise. -/
def trendGo (count : ℕ → ℕ) : List ℕ → ℤ
  | [] => 0
  | [_] => 0
  | a :: b :: rest =>
      (if count b > count a then 1 else -1) + trendGo count (b :: rest)

/-- `EnergyService._calculate_productivity_momentum` (lines 177-204):
bucket events by hour of day; neutral 50 with fewer than two buckets,
else `50 + trend*10` clamped to [0, 100]. -/
def calculate_productivity_momentum (events : List ContextEvent) : ℚ :=
  let hours := events.map eventHour
  let bucketKeys := hours.dedup
  if bucketKeys.length < 2 then 50
  else
    let sortedHours := bucketKeys.insertionSort (fun a b => a ≤ b)
    let trend := trendGo (fun h => hours.count h) sortedHours
    max 0 (min 100 ((50 : ℚ) + (trend : ℚ) * 10))

/-- The seven component subscores of the energy score. -/
structure EnergyComponents where
  flow_time : ℚ
  test_pass_rate : ℚ
  commit_quality : ℚ
  context_stability : ℚ
  error_frequency : ℚ
  distraction_rate : ℚ
  productivity_momentum : ℚ

/-- The fixed weighted combination of `calculate_energy_score` (lines
58-62) with the weights of `scoring_weights` (lines 9-17). -/
def weightedSum (c : EnergyComponents) : ℚ :=
  c.flow_time * (1 / 4) + c.test_pass_rate * (1 / 5) +
    c.commit_quality * (3 / 20) + c.context_stability * (3 / 20) +
    c.error_frequency * (-(1 / 10)) + c.distraction_rate * (-(1 / 10)) +
    c.productivity_momentum * (1 / 20)

/-- `EnergyService._get_energy_grade` (lines 206-227). -/
def get_energy_grade (score : ℚ) : String :=
  if score ≥ 90 then "A+"
  else if score ≥ 85 then "A"
  else if score ≥ 80 then "A-"
  else if score ≥ 75 then "B+"
  else if score ≥ 70 then "B"
  else if score ≥ 65 then "B-"
  else if score ≥ 60 then "C+"
  else if score ≥ 55 then "C"
  else if score ≥ 50 then "C-"
  else "D"

/-- `EnergyService._generate_insights` (lines 229-252), with the emoji
prefixes of the templated texts elided. -/
def generate_insights (c : EnergyComponents) : List String :=
  (if c.flow_time > 70 then ["Excellent flow state maintenance"]
   else if c.flow_time < 30 then
     ["Low flow time - consider minimizing distractions"]
   else []) ++
  (if c.test_pass_rate > 80 then ["High test pass rate - good code quality"]
   else if c.test_pass_rate < 50 then ["Low test pass rate - focus on testing"]
   else []) ++
  (if c.context_stability < 40 then
     ["High context switching - try staying focused on fewer files"]
   else []) ++
  (if c.error_frequency > 50 then
     ["High error frequency - take breaks and double-check code"]
   else []) ++
  (if c.productivity_momentum > 70 then ["Strong productivity momentum"]
   else [])

/-- The dict `calculate_energy_score` returns (display rounding of the
final score to two decimals elided). -/
structure EnergyResult where
  final_score : ℚ
  components : EnergyComponents
  session_duration_hours : ℚ
  grade : String
  insights : List String

/-- `EnergyService.calculate_energy_score` (`energy_service.py` lines
19-74).  The flow-time component divides by `session_duration_hours`, so
a zero duration raises `ZeroDivisionError` in Python; that is the only
failure of the function, every other component substitutes a neutral
default on missing data. -/
def calculate_energy_score (events : List ContextEvent)
    (session_duration_hours : ℚ) : Except String EnergyResult :=
  if session_duration_hours = 0 then
    .error "ZeroDivisionError: float division by zero"
  else
    let flow_events := events.filter
      (fun e => e.type = "flow_start" ∨ e.type = "flow_end")
    let total_flow_time := calculate_flow_time flow_events
    let components : EnergyComponents :=
      { flow_time := min (total_flow_time / session_duration_hours * 100) 100,
        test_pass_rate :=
          calculate_test_pass_rate (events.filter (fun e => e.type = "test_run")),
        commit_quality :=
          calculate_commit_quality
            (events.filter (fun e => e.type = "commit_created")),
        context_stability := calculate_context_stability events,
        error_frequency := calculate_error_frequency events,
        distraction_rate := calculate_distraction_rate events,
        productivity_momentum := calculate_productivity_momentum events }
    let final_score := max 0 (min 100 (weightedSum components))
    .ok { final_score := final_score, components := components,
          session_duration_hours := session_duration_hours,
          grade := get_energy_grade final_score,
          insights := generate_insights components }

end EnergyService

/-! ## Concrete inputs used by witnesses and counterexamples -/

/-- A `file_modified` event touching `a.py`. -/
def editA (ts : ℕ) : ContextEvent :=
  { sessionId := "s", agent := "file", type := "file_modified",
    payload := [("file_path", "a.py")], payloadFiles := [], timestamp := ts }

/-- A failed `test_run` event. -/
def failedTest (ts : ℕ) : ContextEvent :=
  { sessionId := "s", agent := "editor", type := "test_run",
    payload := [("status", "failed")], payloadFiles := [], timestamp := ts }

/-- A window with 6 edits of `a.py` and 4 failed test runs: both the
looping-edits and the repeated-errors conditions hold at once. -/
def stuckDemoEvents : List ContextEvent :=
  [editA 1, editA 2, editA 3, editA 4, editA 5, editA 6,
   failedTest 7, failedTest 8, failedTest 9, failedTest 10]

/-- A live flow session of session `s1` started at time 0, as created by
`FlowService._start_flow_session` (no `end_time`, no `energy_score`). -/
def demoFlowSession : FlowService.FlowSession :=
  { session_id := "s1", start_time := 0 }

/-- Graph-store node: in the query window, readable with key 7, no
outgoing edges. -/
def demoNodeA : TemporalContextGraph.StoredNode :=
  { id := 1, session_id := "s", agent := "file", event_type := "file_modified",
    encrypted_payload := .token 7 (Json.str "a"), timestamp := 90,
    file_path := some "a.py" }

/-- Graph-store node: in the query window, readable with key 7, two
outgoing edges. -/
def demoNodeB : TemporalContextGraph.StoredNode :=
  { id := 2, session_id := "s", agent := "editor", event_type := "editor_focus",
    encrypted_payload := .token 7 (Json.str "b"), timestamp := 80,
    file_path := some "b.py" }

/-- Graph-store node: outside the query window. -/
def demoNodeC : TemporalContextGraph.StoredNode :=
  { id := 3, session_id := "s", agent := "file", event_type := "file_modified",
    encrypted_payload := .token 7 (Json.str "c"), timestamp := 10,
    file_path := none }

/-- Graph-store node: in the window but encrypted under a different key,
so it fails decryption with key 7. -/
def demoNodeD : TemporalContextGraph.StoredNode :=
  { id := 4, session_id := "s", agent := "terminal", event_type := "command_executed",
    encrypted_payload := .token 9 (Json.str "d"), timestamp := 85,
    file_path := none }

/-- Second corrupt in-window node (malformed stored text). -/
def demoNodeE : TemporalContextGraph.StoredNode :=
  { id := 5, session_id := "s", agent := "terminal", event_type := "command_executed",
    encrypted_payload := .malformed "garbage", timestamp := 84,
    file_path := none }

/-- Outgoing edges of `demoNodeB`. -/
def demoEdge1 : TemporalContextGraph.StoredEdge :=
  { from_node_id := 2, to_node_id := 1, relationship_type := "temporal",
    weight := 1, created_at := 95 }

/-- Second outgoing edge of `demoNodeB`. -/
def demoEdge2 : TemporalContextGraph.StoredEdge :=
  { from_node_id := 2, to_node_id := 1, relationship_type := "causal",
    weight := 1 / 2, created_at := 96 }

/-- The demo node table. -/
def demoNodes : List TemporalContextGraph.StoredNode :=
  [demoNodeA, demoNodeB, demoNodeC, demoNodeD]

/-- The demo edge table. -/
def demoEdges : List TemporalContextGraph.StoredEdge :=
  [demoEdge1, demoEdge2]

/-- The decoded entry the demo query returns for `demoNodeA` (no
outgoing edges: null relationship columns). -/
def demoRowA : TemporalContextGraph.CtxRow :=
  { id := 1, agent := "file", type := "file_modified", payload := Json.str "a",
    timestamp := 90, file_path := some "a.py", relationship := none,
    weight := none }

/-- The decoded entry for `demoNodeB` along `demoEdge1`. -/
def demoRowB1 : TemporalContextGraph.CtxRow :=
  { id := 2, agent := "editor", type := "editor_focus", payload := Json.str "b",
    timestamp := 80, file_path := some "b.py", relationship := some "temporal",
    weight := some 1 }

/-- The decoded entry for `demoNodeB` along `demoEdge2`. -/
def demoRowB2 : TemporalContextGraph.CtxRow :=
  { id := 2, agent := "editor", type := "editor_focus", payload := Json.str "b",
    timestamp := 80, file_path := some "b.py", relationship := some "causal",
    weight := some (1 / 2) }

/-- Store whose only in-window rows are readable. -/
def readableOnlyNodes : List TemporalContextGraph.StoredNode :=
  [demoNodeA]

/-- The same readable row plus two corrupt in-window rows. -/
def withCorruptNodes : List TemporalContextGraph.StoredNode :=
  [demoNodeA, demoNodeD, demoNodeE]

/-- Sweep counterexample edge: created at time 100 (inside the
retention window for cutoff 50) but pointing out of a node whose event
timestamp is 0. -/
def wipeDemoEdge : TemporalContextGraph.StoredEdge :=
  { from_node_id := 1, to_node_id := 2, relationship_type := "temporal",
    weight := 1, created_at := 100 }

/-- Sweep counterexample: an event node older than the cutoff linked by
a relationship edge created after the cutoff. -/
def wipeDemoStore : TemporalContextGraph.GraphStore :=
  { nodes :=
      [{ id := 1, session_id := "s", agent := "file", event_type := "file_modified",
         encrypted_payload := .token 7 Json.null, timestamp := 0,
         file_path := none },
       { id := 2, session_id := "s", agent := "file", event_type := "file_modified",
         encrypted_payload := .token 7 Json.null, timestamp := 100,
         file_path := none }],
    edges := [wipeDemoEdge] }

/-- Metrics whose focus score is 0.9 with rhythm above 0.6: an
above-threshold flow evaluation. -/
def flowMetricsHigh : FlowOrchestrator.FlowMetrics :=
  { rhythm := 3 / 4, contextSwitches := 0, testIntensity := 1 }

/-- Metrics whose focus score is 0.2: a below-threshold evaluation. -/
def flowMetricsLow : FlowOrchestrator.FlowMetrics :=
  { rhythm := 1 / 2, contextSwitches := 5, testIntensity := 0 }

/-! ## Helper lemmas -/

/-- `filterMap` preserves pairwise relations that transfer through the
partial map. -/
theorem pairwise_filterMap_of_pairwise {α β : Type} {f : α → Option β}
    {S : α → α → Prop} {R : β → β → Prop} :
    ∀ {l : List α}, l.Pairwise S →
      (∀ a b x y, S a b → f a = some x → f b = some y → R x y) →
      (l.filterMap f).Pairwise R := by
  intro l hl htrans
  induction hl with
  | nil => simp
  | cons hhead _ ih =>
      rename_i a rest _
      cases hfa : f a with
      | none => simpa [List.filterMap_cons, hfa] using ih
      | some x =>
          simp only [List.filterMap_cons, hfa, List.pairwise_cons]
          refine ⟨fun y hy => ?_, ih⟩
          obtain ⟨b, hb, hfb⟩ := List.mem_filterMap.mp hy
          exact htrans a b x y (hhead b hb) hfa hfb

/-- Counting after `filterMap`: a produced element is counted exactly
when its source produced it satisfying the predicate. -/
theorem countP_filterMap_eq {α β : Type} (f : α → Option β) (q : β → Bool) :
    ∀ l : List α,
      (l.filterMap f).countP q =
        l.countP (fun a => ((f a).map q).getD false) := by
  intro l
  induction l with
  | nil => simp
  | cons a rest ih =>
      cases hfa : f a with
      | none => simp [List.filterMap_cons, hfa, List.countP_cons, ih]
      | some x => simp [List.filterMap_cons, hfa, List.countP_cons, ih]

/-- The length of a `filterMap` counts the sources that produce a value. -/
theorem length_filterMap_eq_countP {α β : Type} (f : α → Option β) :
    ∀ l : List α, (l.filterMap f).length = l.countP (fun a => (f a).isSome) := by
  intro l
  induction l with
  | nil => simp
  | cons a rest ih =>
      cases hfa : f a with
      | none => simp [List.filterMap_cons, hfa, List.countP_cons, ih]
      | some x => simp [List.filterMap_cons, hfa, List.countP_cons, ih]

/-- Summing a function that vanishes everywhere except at one element of
a duplicate-free list. -/
theorem sum_map_eq_of_unique {α : Type} (g : α → ℕ) :
    ∀ (l : List α) (a : α), l.Nodup → a ∈ l → (∀ b ∈ l, b ≠ a → g b = 0) →
      (l.map g).sum = g a := by
  intro l
  induction l with
  | nil => intro a _ ha; cases ha
  | cons c rest ih =>
      intro a hnd hmem hz
      rcases List.mem_cons.mp hmem with hca | hrest
      · subst hca
        have hrest0 : ∀ b ∈ rest, g b = 0 := by
          intro b hb
          refine hz b (List.mem_cons_of_mem _ hb) (fun hba => ?_)
          subst hba
          exact (List.nodup_cons.mp hnd).1 hb
        have : (rest.map g).sum = 0 := by
          rw [List.sum_eq_zero]
          intro x hx
          obtain ⟨b, hb, rfl⟩ := List.mem_map.mp hx
          exact hrest0 b hb
        simp [this]
      · have hzc : g c = 0 :=
          hz c (List.mem_cons_self _ _) (fun hca => by
            subst hca
            exact (List.nodup_cons.mp hnd).1 hrest)
        have := ih a (List.nodup_cons.mp hnd).2 hrest
          (fun b hb hba => hz b (List.mem_cons_of_mem _ hb) hba)
        simp [hzc, this]

/-! ## Claim theorems -/

/-- C2: for every structured payload and every derived key, decrypting
the token produced by encrypting the payload with that key returns the
payload unchanged; decrypting any encrypted token with a different key,
or decrypting a malformed token, fails with the decryption error and
never returns a wrong-but-valid payload. -/
theorem encrypt_decrypt_roundtrip :
    (∀ (key : ℕ) (P : Json),
        EncryptionService.decrypt_context key
          (EncryptionService.encrypt_context key P) = .ok P) ∧
    (∀ (key wrongKey : ℕ) (P : Json), wrongKey ≠ key →
        EncryptionService.decrypt_context wrongKey
          (EncryptionService.encrypt_context key P) =
          .error "Decryption failed") ∧
    (∀ (key : ℕ) (raw : String),
        EncryptionService.decrypt_context key
          (EncryptionService.FernetToken.malformed raw) =
          .error "Decryption failed") := by
  refine ⟨fun key P => ?_, fun key wrongKey P h => ?_, fun key raw => rfl⟩
  · simp [EncryptionService.decrypt_context, EncryptionService.encrypt_context]
  · simp [EncryptionService.decrypt_context, EncryptionService.encrypt_context]
    exact fun hkk => absurd hkk.symm h

/-- C2 witness: decrypting a concrete token with a wrong concrete key
fails with the decryption error. -/
theorem encrypt_decrypt_roundtrip_witness :
    EncryptionService.decrypt_context 1
      (EncryptionService.encrypt_context 0 (Json.str "p")) =
      .error "Decryption failed" :=
  encrypt_decrypt_roundtrip.2.1 0 1 (Json.str "p") (by decide)

/-- C8 counterexample: the energy scorer does raise for a session
duration of zero — the flow-time component divides the accumulated flow
hours by `session_duration_hours`, and Python raises `ZeroDivisionError`
on it, so a final score is not always produced for every session
duration. -/
theorem energy_score_zero_duration_raises :
    EnergyService.calculate_energy_score [] 0 =
      .error "ZeroDivisionError: float division by zero" := rfl

/-- C8 (amended): for every event list and every nonzero session
duration the energy scorer produces a final score without raising, and
missing data yields the neutral defaults: with zero `test_run` events
the test-pass-rate component is 50, and with zero `commit_created`
events the commit-quality component is 50. -/
theorem energy_score_total_with_neutral_defaults
    (events : List ContextEvent) (session_duration_hours : ℚ)
    (h : session_duration_hours ≠ 0) :
    ∃ r, EnergyService.calculate_energy_score events session_duration_hours =
        .ok r ∧
      (events.filter (fun e => e.type = "test_run") = [] →
        r.components.test_pass_rate = 50) ∧
      (events.filter (fun e => e.type = "commit_created") = [] →
        r.components.commit_quality = 50) := by
  rw [EnergyService.calculate_energy_score, if_neg h]
  refine ⟨_, rfl, fun htest => ?_, fun hcommit => ?_⟩
  · simp [htest, EnergyService.calculate_test_pass_rate]
  · simp [hcommit, EnergyService.calculate_commit_quality]

/-- C8 witness: with no events and a one-hour session, a score is
produced and both neutral defaults apply. -/
theorem energy_score_total_witness :
    ∃ r, EnergyService.calculate_energy_score [] 1 = .ok r ∧
      (([] : List ContextEvent).filter (fun e => e.type = "test_run") = [] →
        r.components.test_pass_rate = 50) ∧
      (([] : List ContextEvent).filter (fun e => e.type = "commit_created") = [] →
        r.components.commit_quality = 50) :=
  energy_score_total_with_neutral_defaults [] 1 (by norm_num)

/-- C10: when `_end_flow_session` finds a live session, the session is
removed from the live-session table, its `end_time` is set, and an
energy score is attached exactly when the session lasted more than 0.1
hours; otherwise `energy_score` keeps its previous value (`None` for
sessions created by `_start_flow_session`), so short flow bursts produce
no session score. -/
theorem end_flow_session_energy_threshold
    (table : List (String × FlowService.FlowSession)) (sid : String) (now : ℕ)
    (kv : String × FlowService.FlowSession)
    (hfind : table.find? (fun kv2 => kv2.1 = sid) = some kv) :
    (FlowService.end_flow_session table sid now).2 =
      some { kv.2 with
        end_time := some now,
        energy_score :=
          if ((now : ℚ) - kv.2.start_time) / 3600 > 1 / 10 then
            some (FlowService.calculate_energy_score
              { kv.2 with end_time := some now })
          else kv.2.energy_score } ∧
    ∀ kv2 ∈ (FlowService.end_flow_session table sid now).1, kv2.1 ≠ sid := by
  constructor
  · simp only [FlowService.end_flow_session, hfind]
    split
    · rfl
    · rfl
  · intro kv2 hmem
    simp only [FlowService.end_flow_session, hfind] at hmem
    exact of_decide_eq_true (List.mem_filter.mp hmem).2

/-- C10 witness: a session started at time 0 and ended at time 360 (6
minutes, exactly 0.1 hours, not above the threshold) is removed and
keeps `energy_score = none`. -/
theorem end_flow_session_energy_threshold_witness :
    (FlowService.end_flow_session [("s1", demoFlowSession)] "s1" 360).2 =
      some { demoFlowSession with
        end_time := some 360,
        energy_score :=
          if ((360 : ℚ) - demoFlowSession.start_time) / 3600 > 1 / 10 then
            some (FlowService.calculate_energy_score
              { demoFlowSession with end_time := some 360 })
          else demoFlowSession.energy_score } ∧
    ∀ kv2 ∈ (FlowService.end_flow_session [("s1", demoFlowSession)] "s1" 360).1,
      kv2.1 ≠ "s1" :=
  end_flow_session_energy_threshold [("s1", demoFlowSession)] "s1" 360
    ("s1", demoFlowSession) rfl

/-- C7 counterexample: after sweeping with cutoff 50, the store that
held an event node with timestamp 0 and a relationship edge created at
time 100 pointing out of that node still holds the edge, while the node
it references is gone — a remaining edge references a deleted event
node, because edges are aged by `created_at` but nodes by `timestamp`. -/
theorem auto_wipe_leaves_dangling_edge :
    ∃ e ∈ (TemporalContextGraph.auto_wipe_old_data wipeDemoStore 50).edges,
      (∀ n ∈ (TemporalContextGraph.auto_wipe_old_data wipeDemoStore 50).nodes,
        n.id ≠ e.from_node_id) ∧
      (∃ n ∈ wipeDemoStore.nodes, n.id = e.from_node_id) := by
  refine ⟨wipeDemoEdge, ?_, ?_, ?_⟩
  · simp [TemporalContextGraph.auto_wipe_old_data, TemporalContextGraph.wipeScript,
      TemporalContextGraph.applyDelete, wipeDemoStore, wipeDemoEdge]
  · intro n hn
    simp [TemporalContextGraph.auto_wipe_old_data, TemporalContextGraph.wipeScript,
      TemporalContextGraph.applyDelete, wipeDemoStore] at hn
    subst hn
    simp [wipeDemoEdge]
  · refine ⟨_, List.mem_cons_self _ _, rfl⟩

/-- C7 (amended): the sweep runs the edge delete before the node delete;
afterwards no edge with `created_at` older than the cutoff and no node
with `timestamp` older than the cutoff remains.  A remaining edge may
still reference a deleted node, because edges are aged by their creation
time while nodes are aged by their event timestamp. -/
theorem auto_wipe_retention (s : TemporalContextGraph.GraphStore) (cutoff : ℕ) :
    TemporalContextGraph.auto_wipe_old_data s cutoff =
      TemporalContextGraph.applyDelete
        (TemporalContextGraph.applyDelete s (.edgesOlderThan cutoff))
        (.nodesOlderThan cutoff) ∧
    (∀ e ∈ (TemporalContextGraph.auto_wipe_old_data s cutoff).edges,
      cutoff ≤ e.created_at) ∧
    (∀ n ∈ (TemporalContextGraph.auto_wipe_old_data s cutoff).nodes,
      cutoff ≤ n.timestamp) := by
  refine ⟨rfl, fun e he => ?_, fun n hn => ?_⟩
  · simp [TemporalContextGraph.auto_wipe_old_data, TemporalContextGraph.wipeScript,
      TemporalContextGraph.applyDelete, List.mem_filter] at he
    exact he.2
  · simp [TemporalContextGraph.auto_wipe_old_data, TemporalContextGraph.wipeScript,
      TemporalContextGraph.applyDelete, List.mem_filter] at hn
    exact hn.2

/-- C7 amended witness: in the swept demo store the surviving edge was
created at or after the cutoff. -/
theorem auto_wipe_retention_witness :
    (50 : ℕ) ≤ wipeDemoEdge.created_at :=
  (auto_wipe_retention wipeDemoStore 50).2.1 _
    (by simp [TemporalContextGraph.auto_wipe_old_data,
      TemporalContextGraph.wipeScript, TemporalContextGraph.applyDelete,
      wipeDemoStore, wipeDemoEdge])

/-- The switch-counting fold adds the consecutive-difference count of
the touched paths to its accumulator. -/
theorem switch_fold (events : List ContextEvent) :
    ∀ (last : Option String) (n : ℕ),
      (events.foldl switchStep (last, n)).2 =
        n + FlowService.chainCount last (FlowService.touchedPaths events) := by
  induction events with
  | nil => intro last n; simp [FlowService.touchedPaths, FlowService.chainCount]
  | cons e rest ih =>
      intro last n
      by_cases htype : e.type = "file_modified" ∨ e.type = "editor_focus"
      · cases hget : truthyGet e.payload "file_path" with
        | none =>
            have hpaths : FlowService.touchedPaths (e :: rest) =
                FlowService.touchedPaths rest := by
              simp [FlowService.touchedPaths, List.filterMap_cons, htype, hget]
            have hstep : switchStep (last, n) e = (last, n) := by
              simp [switchStep, htype, hget]
            rw [List.foldl_cons, hstep, ih last n, hpaths]
        | some p =>
            have hpaths : FlowService.touchedPaths (e :: rest) =
                p :: FlowService.touchedPaths rest := by
              simp [FlowService.touchedPaths, List.filterMap_cons, htype, hget]
            by_cases hdiff : some p = last
            · subst hdiff
              have hstep : switchStep (some p, n) e = (some p, n) := by
                simp [switchStep, htype, hget]
              rw [List.foldl_cons, hstep, ih (some p) n, hpaths]
              simp [FlowService.chainCount]
            · have hstep : switchStep (last, n) e = (some p, n + 1) := by
                simp [switchStep, htype, hget, hdiff]
              rw [List.foldl_cons, hstep, ih (some p) (n + 1), hpaths]
              simp only [FlowService.chainCount, ne_eq, hdiff, not_false_eq_true,
                if_true]
              omega
      · have hpaths : FlowService.touchedPaths (e :: rest) =
            FlowService.touchedPaths rest := by
          simp [FlowService.touchedPaths, List.filterMap_cons, htype]
        have hstep : switchStep (last, n) e = (last, n) := by
          simp [switchStep, htype]
        rw [List.foldl_cons, hstep, ih last n, hpaths]

/-- C6 counterexample: the claim is false for the cited
`FlowOrchestrator.calculate_context_switches`, one of the two
contextSwitches quantities feeding a flow-indicator computation
(`focus_score`, `flow_orchestrator.py` lines 89-93): on the focused
paths `[a.py, b.py, a.py]` it returns the number of distinct file paths
(2), not the consecutive-difference count (3) — the revisit of `a.py`
is not counted again. -/
theorem orchestrator_switches_distinct_count :
    FlowOrchestrator.calculate_context_switches ["a.py", "b.py", "a.py"] =
      (["a.py", "b.py", "a.py"] : List String).dedup.length ∧
    FlowOrchestrator.calculate_context_switches ["a.py", "b.py", "a.py"] ≠
      FlowService.chainCount none ["a.py", "b.py", "a.py"] := by
  exact ⟨rfl, by decide⟩

/-- C6 (amended): the `contextSwitches` used by the flow-score formula
of `FlowService.detect_flow_state` (the 0.4/0.4/0.2 combination of the
spec) counts, over the window's `file_modified`/`editor_focus` events in
order, exactly the events whose truthy file path differs from the
immediately preceding touched path (revisits count again, e.g. 3 on
`[a.py, b.py, a.py]`); the parallel `FlowOrchestrator` focus-score
instead uses the number of distinct `editor_focus` file paths (2 on the
same window). -/
theorem context_switches_consecutive_rule :
    (∀ events : List ContextEvent,
      FlowService.count_context_switches events =
        FlowService.chainCount none (FlowService.touchedPaths events)) ∧
    FlowService.chainCount none ["a.py", "b.py", "a.py"] = 3 ∧
    FlowOrchestrator.calculate_context_switches ["a.py", "b.py", "a.py"] = 2 := by
  refine ⟨fun events => ?_, by decide, by decide⟩
  simpa using switch_fold events none 0

/-- Membership in the first-occurrence key list: a key occurs in
`dictKeys l` exactly when it occurs in `l`. -/
theorem mem_dictKeys {p : String} : ∀ {l : List String},
    p ∈ AIService.dictKeys l ↔ p ∈ l := by
  have hgo : ∀ (l seen : List String), p ∈ AIService.dictKeys.go l seen ↔
      p ∈ l ∧ p ∉ seen := by
    intro l
    induction l with
    | nil => intro seen; simp [AIService.dictKeys.go]
    | cons q rest ih =>
        intro seen
        by_cases hq : q ∈ seen
        · rw [AIService.dictKeys.go, if_pos hq, ih]
          constructor
          · exact fun h => ⟨List.mem_cons_of_mem _ h.1, h.2⟩
          · rintro ⟨h1, h2⟩
            rcases List.mem_cons.mp h1 with rfl | h1
            · exact absurd hq h2
            · exact ⟨h1, h2⟩
        · rw [AIService.dictKeys.go, if_neg hq]
          constructor
          · intro hmem
            rcases List.mem_cons.mp hmem with rfl | hmem
            · exact ⟨List.mem_cons_self _ _, hq⟩
            · have := (ih (q :: seen)).mp hmem
              exact ⟨List.mem_cons_of_mem _ this.1,
                fun hs => this.2 (List.mem_cons_of_mem _ hs)⟩
          · rintro ⟨h1, h2⟩
            rcases List.mem_cons.mp h1 with rfl | h1
            · exact List.mem_cons_self _ _
            · by_cases hpq : p = q
              · subst hpq; exact List.mem_cons_self _ _
              · exact List.mem_cons_of_mem _ ((ih (q :: seen)).mpr
                  ⟨h1, by simp [hpq, h2]⟩)
  intro l
  rw [AIService.dictKeys, hgo]
  simp

/-- C5: `detect_stuck_state` evaluates its three patterns in fixed
priority order with first match winning: a file with more than 5 edits
yields `looping_edits` with confidence `min(editCount/10, 1)` even when
the repeated-errors condition also holds; otherwise more than 3 failed
`test_run` events yield `repeated_errors` with confidence
`min(failedCount/5, 1)`; otherwise fewer than 5 events with a failed
most-recent test run yield `idle_with_failures` with confidence 0.8;
otherwise no stuck-state result is returned. -/
theorem detect_stuck_state_priority (events : List ContextEvent) :
    (AIService.hasLoopingFile events →
      ∃ p, (AIService.fileEditPaths events).count p > 5 ∧
        AIService.detect_stuck_state events =
          some (.loopingEdits p ((AIService.fileEditPaths events).count p)
            (min (((AIService.fileEditPaths events).count p : ℚ) / 10) 1))) ∧
    (¬ AIService.hasLoopingFile events → AIService.failedTestCount events > 3 →
      AIService.detect_stuck_state events =
        some (.repeatedErrors (AIService.failedTestCount events)
          (min ((AIService.failedTestCount events : ℚ) / 5) 1))) ∧
    (¬ AIService.hasLoopingFile events → ¬ AIService.failedTestCount events > 3 →
      AIService.idleCond events →
      AIService.detect_stuck_state events =
        some (.idleWithFailures (8 / 10))) ∧
    (¬ AIService.hasLoopingFile events → ¬ AIService.failedTestCount events > 3 →
      ¬ AIService.idleCond events →
      AIService.detect_stuck_state events = none) := by
  cases hfind : (AIService.dictKeys (AIService.fileEditPaths events)).find?
      (fun q => decide ((AIService.fileEditPaths events).count q > 5)) with
  | some p =>
      have hcount : (AIService.fileEditPaths events).count p > 5 :=
        of_decide_eq_true
          (List.find?_some
            (p := fun q => decide ((AIService.fileEditPaths events).count q > 5))
            hfind)
      have hmemp : p ∈ AIService.fileEditPaths events :=
        mem_dictKeys.mp
          (List.mem_of_find?_eq_some
            (p := fun q => decide ((AIService.fileEditPaths events).count q > 5))
            hfind)
      have hdet : AIService.detect_stuck_state events =
          some (.loopingEdits p ((AIService.fileEditPaths events).count p)
            (min (((AIService.fileEditPaths events).count p : ℚ) / 10) 1)) := by
        simp only [AIService.detect_stuck_state, hfind]
      have hloop : AIService.hasLoopingFile events := ⟨p, hmemp, hcount⟩
      exact ⟨fun _ => ⟨p, hcount, hdet⟩,
        fun h => absurd hloop h,
        fun h => absurd hloop h,
        fun h => absurd hloop h⟩
  | none =>
      refine ⟨fun hloop => ?_, fun _ hfail => ?_, fun _ hfail hidle => ?_,
        fun _ hfail hidle => ?_⟩
      · obtain ⟨q, hq, hcount⟩ := hloop
        have := List.find?_eq_none.mp hfind q (mem_dictKeys.mpr hq)
        exact (this (decide_eq_true hcount)).elim
      · simp only [AIService.detect_stuck_state, hfind]
        rw [if_pos (show ((events.filter (fun e => e.type = "test_run")).filter
            (fun e => payloadGet e.payload "status" = some "failed")).length > 3
          from hfail)]
        rfl
      · obtain ⟨lt, hlast, hlen, hstatus⟩ := hidle
        simp only [AIService.detect_stuck_state, hfind]
        rw [if_neg (show ¬ ((events.filter (fun e => e.type = "test_run")).filter
            (fun e => payloadGet e.payload "status" = some "failed")).length > 3
          from hfail)]
        rw [hlast]
        exact if_pos ⟨hlen, hstatus⟩
      · simp only [AIService.detect_stuck_state, hfind]
        rw [if_neg (show ¬ ((events.filter (fun e => e.type = "test_run")).filter
            (fun e => payloadGet e.payload "status" = some "failed")).length > 3
          from hfail)]
        cases hlast : (events.filter (fun e => e.type = "test_run")).getLast? with
        | none => rfl
        | some lt =>
            exact if_neg (fun hcond => hidle ⟨lt, hlast, hcond.1, hcond.2⟩)

/-- C5 witness: in a window with 6 edits of `a.py` and 4 failed test
runs — both the looping-edits and repeated-errors conditions hold — the
looping-edits pattern wins. -/
theorem detect_stuck_state_priority_witness :
    ∃ p, (AIService.fileEditPaths stuckDemoEvents).count p > 5 ∧
      AIService.detect_stuck_state stuckDemoEvents =
        some (.loopingEdits p ((AIService.fileEditPaths stuckDemoEvents).count p)
          (min (((AIService.fileEditPaths stuckDemoEvents).count p : ℚ) / 10) 1)) :=
  (detect_stuck_state_priority stuckDemoEvents).1
    (by unfold AIService.hasLoopingFile; decide)

/-- Every row the left join produces for node `n` carries `n` as its
node component. -/
theorem mem_joinRows {edges : List TemporalContextGraph.StoredEdge}
    {n : TemporalContextGraph.StoredNode}
    {row : TemporalContextGraph.StoredNode × Option TemporalContextGraph.StoredEdge}
    (h : row ∈ TemporalContextGraph.joinRows edges n) : row.1 = n := by
  unfold TemporalContextGraph.joinRows at h
  cases hf : edges.filter (fun e => e.from_node_id = n.id) with
  | nil =>
      rw [hf] at h
      simp at h
      rw [h]
  | cons e es =>
      rw [hf] at h
      obtain ⟨e2, _, rfl⟩ := List.mem_map.mp h
      rfl

/-- A decoded entry copies the row's node identity, timestamp and
relationship columns, and its payload is the decryption of the stored
payload. -/
theorem decodeRow_spec {key : ℕ}
    {row : TemporalContextGraph.StoredNode × Option TemporalContextGraph.StoredEdge}
    {r : TemporalContextGraph.CtxRow}
    (h : TemporalContextGraph.decodeRow key row = some r) :
    r.id = row.1.id ∧ r.timestamp = row.1.timestamp ∧
    EncryptionService.decrypt_context key row.1.encrypted_payload = .ok r.payload ∧
    r.relationship = row.2.map (fun e => e.relationship_type) ∧
    r.weight = row.2.map (fun e => e.weight) := by
  unfold TemporalContextGraph.decodeRow at h
  cases hd : EncryptionService.decrypt_context key row.1.encrypted_payload with
  | ok payload =>
      rw [hd] at h
      injection h with h2
      subst h2
      exact ⟨rfl, rfl, rfl, rfl, rfl⟩
  | error e =>
      rw [hd] at h
      cases h

/-- The joined row set is ordered by the node timestamp, newest first. -/
theorem queryRows_pairwise (nodes : List TemporalContextGraph.StoredNode)
    (edges : List TemporalContextGraph.StoredEdge) (sid : String) (cutoff : ℕ) :
    (TemporalContextGraph.queryRows nodes edges sid cutoff).Pairwise
      (fun a b => b.1.timestamp ≤ a.1.timestamp) := by
  unfold TemporalContextGraph.queryRows
  rw [List.pairwise_flatten]
  constructor
  · intro grp hgrp
    obtain ⟨n, _, rfl⟩ := List.mem_map.mp hgrp
    apply List.pairwise_of_forall_mem_list
    intro a ha b hb
    rw [mem_joinRows ha, mem_joinRows hb]
  · rw [List.pairwise_map]
    have hs : ((nodes.filter
        (fun n => n.session_id = sid ∧ cutoff ≤ n.timestamp)).insertionSort
          TemporalContextGraph.newerEq).Pairwise TemporalContextGraph.newerEq :=
      List.sorted_insertionSort _ _
    refine hs.imp ?_
    intro m1 m2 h12 x hx y hy
    rw [mem_joinRows hx, mem_joinRows hy]
    exact h12

/-- Every joined row's node belongs to the store, to the queried
session, and to the time window. -/
theorem mem_queryRows {nodes : List TemporalContextGraph.StoredNode}
    {edges : List TemporalContextGraph.StoredEdge} {sid : String} {cutoff : ℕ}
    {row : TemporalContextGraph.StoredNode × Option TemporalContextGraph.StoredEdge}
    (h : row ∈ TemporalContextGraph.queryRows nodes edges sid cutoff) :
    row.1 ∈ nodes ∧ row.1.session_id = sid ∧ cutoff ≤ row.1.timestamp := by
  unfold TemporalContextGraph.queryRows at h
  obtain ⟨grp, hgrp, hrow⟩ := List.mem_flatten.mp h
  obtain ⟨n, hn, rfl⟩ := List.mem_map.mp hgrp
  have h1 : row.1 = n := mem_joinRows hrow
  have hn2 : n ∈ nodes.filter
      (fun n => n.session_id = sid ∧ cutoff ≤ n.timestamp) :=
    (List.perm_insertionSort TemporalContextGraph.newerEq _).subset hn
  have := List.mem_filter.mp hn2
  have hprop := of_decide_eq_true this.2
  exact ⟨h1 ▸ this.1, h1 ▸ hprop.1, h1 ▸ hprop.2⟩

/-- C3: for every store, key, session and window, the windowed retrieval
returns entries sorted by timestamp newest first, every returned entry
lies inside the window (`timestamp >= now - W`), and every returned
payload is the decryption of the matching stored node's encrypted
payload. -/
theorem windowed_query_sorted_and_decrypted
    (nodes : List TemporalContextGraph.StoredNode)
    (edges : List TemporalContextGraph.StoredEdge) (key : ℕ) (sid : String)
    (now time_window_minutes : ℕ) :
    ((TemporalContextGraph.get_temporal_context nodes edges key sid now
        time_window_minutes).Pairwise (fun a b => b.timestamp ≤ a.timestamp)) ∧
    (∀ r ∈ TemporalContextGraph.get_temporal_context nodes edges key sid now
        time_window_minutes, now - time_window_minutes * 60 ≤ r.timestamp) ∧
    (∀ r ∈ TemporalContextGraph.get_temporal_context nodes edges key sid now
        time_window_minutes, ∃ n ∈ nodes, n.session_id = sid ∧ n.id = r.id ∧
      n.timestamp = r.timestamp ∧
      EncryptionService.decrypt_context key n.encrypted_payload = .ok r.payload) := by
  refine ⟨?_, ?_, ?_⟩
  · exact pairwise_filterMap_of_pairwise
      (queryRows_pairwise nodes edges sid (now - time_window_minutes * 60))
      (fun a b x y hab ha hb => by
        have hx := decodeRow_spec ha
        have hy := decodeRow_spec hb
        rw [hx.2.1, hy.2.1]
        exact hab)
  · intro r hr
    obtain ⟨row, hrow, hdec⟩ := List.mem_filterMap.mp hr
    have hq := mem_queryRows hrow
    have hd := decodeRow_spec hdec
    rw [hd.2.1]
    exact hq.2.2
  · intro r hr
    obtain ⟨row, hrow, hdec⟩ := List.mem_filterMap.mp hr
    have hq := mem_queryRows hrow
    have hd := decodeRow_spec hdec
    exact ⟨row.1, hq.1, hq.2.1, hd.1.symm, hd.2.1.symm, hd.2.2.1⟩

/-- C3 witness: in the demo store the first returned entry (node 1,
timestamp 90) lies inside the 1-minute window ending at time 100. -/
theorem windowed_query_sorted_witness :
    (100 : ℕ) - 1 * 60 ≤ demoRowA.timestamp :=
  (windowed_query_sorted_and_decrypted demoNodes demoEdges 7 "s" 100 1).2.1
    demoRowA
    (by rw [show TemporalContextGraph.get_temporal_context demoNodes demoEdges
        7 "s" 100 1 = [demoRowA, demoRowB1, demoRowB2] from rfl]
        exact List.mem_cons_self _ _)

/-- C4 counterexample: the windowed query's return value carries no
count of skipped corrupt rows — two stores whose queries skip 0 and 2
corrupt rows respectively produce identical results, so no function of
the result can report the number of skipped rows. -/
theorem windowed_query_returns_no_skipped_count :
    ¬ ∃ skippedCount : List TemporalContextGraph.CtxRow → ℕ,
        ∀ nodes : List TemporalContextGraph.StoredNode,
          skippedCount
              (TemporalContextGraph.get_temporal_context nodes [] 7 "s" 100 1) =
            ((TemporalContextGraph.queryRows nodes [] "s" (100 - 1 * 60)).filter
              (fun row => ¬ (TemporalContextGraph.decodeRow 7 row).isSome)).length := by
  rintro ⟨f, hf⟩
  have h1 := hf readableOnlyNodes
  have h2 := hf withCorruptNodes
  rw [show TemporalContextGraph.get_temporal_context withCorruptNodes [] 7 "s" 100 1 =
      TemporalContextGraph.get_temporal_context readableOnlyNodes [] 7 "s" 100 1
    from rfl, h1] at h2
  exact absurd h2 (by decide)

/-- C4 (amended): the windowed query never raises; it returns exactly
the readable (successfully decrypted) joined rows — dropped corrupt rows
account for the full difference in length, every returned entry decodes
some joined row, and every readable joined row is returned — but no
count of the skipped rows is part of the result. -/
theorem windowed_query_skips_corrupt_rows
    (nodes : List TemporalContextGraph.StoredNode)
    (edges : List TemporalContextGraph.StoredEdge) (key : ℕ) (sid : String)
    (now time_window_minutes : ℕ) :
    ((TemporalContextGraph.get_temporal_context nodes edges key sid now
        time_window_minutes).length +
      (TemporalContextGraph.queryRows nodes edges sid
          (now - time_window_minutes * 60)).countP
        (fun row => !(TemporalContextGraph.decodeRow key row).isSome) =
      (TemporalContextGraph.queryRows nodes edges sid
        (now - time_window_minutes * 60)).length) ∧
    (∀ r ∈ TemporalContextGraph.get_temporal_context nodes edges key sid now
        time_window_minutes,
      ∃ row ∈ TemporalContextGraph.queryRows nodes edges sid
          (now - time_window_minutes * 60),
        TemporalContextGraph.decodeRow key row = some r) ∧
    (∀ row ∈ TemporalContextGraph.queryRows nodes edges sid
        (now - time_window_minutes * 60),
      ∀ r, TemporalContextGraph.decodeRow key row = some r →
        r ∈ TemporalContextGraph.get_temporal_context nodes edges key sid now
          time_window_minutes) := by
  refine ⟨?_, ?_, ?_⟩
  · unfold TemporalContextGraph.get_temporal_context
    rw [length_filterMap_eq_countP]
    have hsplit := List.length_eq_countP_add_countP
      (fun row => (TemporalContextGraph.decodeRow key row).isSome)
      (TemporalContextGraph.queryRows nodes edges sid
        (now - time_window_minutes * 60))
    rw [hsplit]
    congr 1
    apply List.countP_congr
    intro row _
    simp
  · intro r hr
    obtain ⟨row, hrow, hdec⟩ := List.mem_filterMap.mp hr
    exact ⟨row, hrow, hdec⟩
  · intro row hrow r hdec
    exact List.mem_filterMap.mpr ⟨row, hrow, hdec⟩

/-- C4 amended witness: in the store with two corrupt rows the readable
entry is returned and decodes one of the joined rows. -/
theorem windowed_query_skips_corrupt_rows_witness :
    ∃ row ∈ TemporalContextGraph.queryRows withCorruptNodes [] "s" (100 - 1 * 60),
      TemporalContextGraph.decodeRow 7 row = some demoRowA :=
  (windowed_query_skips_corrupt_rows withCorruptNodes [] 7 "s" 100 1).2.1 demoRowA
    (by rw [show TemporalContextGraph.get_temporal_context withCorruptNodes []
        7 "s" 100 1 = [demoRowA] from rfl]
        exact List.mem_cons_self _ _)

/-- The left join produces one row for an edge-less node and one row per
outgoing edge otherwise. -/
theorem joinRows_length (edges : List TemporalContextGraph.StoredEdge)
    (n : TemporalContextGraph.StoredNode) :
    (TemporalContextGraph.joinRows edges n).length =
      if (edges.filter (fun e => e.from_node_id = n.id)).length = 0 then 1
      else (edges.filter (fun e => e.from_node_id = n.id)).length := by
  unfold TemporalContextGraph.joinRows
  cases hf : edges.filter (fun e => e.from_node_id = n.id) with
  | nil => simp
  | cons e es => simp

/-- A row whose node payload decrypts is decoded to the entry built from
its columns. -/
theorem decodeRow_of_ok {key : ℕ}
    {row : TemporalContextGraph.StoredNode × Option TemporalContextGraph.StoredEdge}
    {p : Json}
    (h : EncryptionService.decrypt_context key row.1.encrypted_payload = .ok p) :
    TemporalContextGraph.decodeRow key row =
      some { id := row.1.id, agent := row.1.agent, type := row.1.event_type,
             payload := p, timestamp := row.1.timestamp,
             file_path := row.1.file_path,
             relationship := row.2.map (fun e => e.relationship_type),
             weight := row.2.map (fun e => e.weight) } := by
  unfold TemporalContextGraph.decodeRow
  rw [h]

/-- Every joined row lies in the join group of its own node. -/
theorem mem_queryRows_group {nodes : List TemporalContextGraph.StoredNode}
    {edges : List TemporalContextGraph.StoredEdge} {sid : String} {cutoff : ℕ}
    {row : TemporalContextGraph.StoredNode × Option TemporalContextGraph.StoredEdge}
    (h : row ∈ TemporalContextGraph.queryRows nodes edges sid cutoff) :
    row ∈ TemporalContextGraph.joinRows edges row.1 := by
  unfold TemporalContextGraph.queryRows at h
  obtain ⟨grp, hgrp, hrow⟩ := List.mem_flatten.mp h
  obtain ⟨m, _, rfl⟩ := List.mem_map.mp hgrp
  rw [mem_joinRows hrow]
  exact hrow

/-- C9: the windowed retrieval joins nodes to their outgoing
relationship edges, so a readable stored event node in the window with k
outgoing edges yields k result entries when k >= 1 and exactly one entry
otherwise, and in the edge-less case that single entry carries null
relationship fields (the result is one entry per (event, outgoing edge)
pair, not one entry per event). -/
theorem windowed_query_row_multiplicity
    (nodes : List TemporalContextGraph.StoredNode)
    (edges : List TemporalContextGraph.StoredEdge) (key : ℕ) (sid : String)
    (now time_window_minutes : ℕ) (n : TemporalContextGraph.StoredNode) (p : Json)
    (hnodup : (nodes.map (fun m => m.id)).Nodup)
    (hmem : n ∈ nodes) (hsid : n.session_id = sid)
    (hts : now - time_window_minutes * 60 ≤ n.timestamp)
    (hdec : EncryptionService.decrypt_context key n.encrypted_payload = .ok p) :
    ((TemporalContextGraph.get_temporal_context nodes edges key sid now
        time_window_minutes).countP (fun r => r.id = n.id) =
      if (edges.filter (fun e => e.from_node_id = n.id)).length = 0 then 1
      else (edges.filter (fun e => e.from_node_id = n.id)).length) ∧
    ((edges.filter (fun e => e.from_node_id = n.id)).length = 0 →
      ∀ r ∈ TemporalContextGraph.get_temporal_context nodes edges key sid now
          time_window_minutes,
        r.id = n.id → r.relationship = none ∧ r.weight = none) := by
  have hinj := List.inj_on_of_nodup_map hnodup
  have hninW : n ∈ nodes.filter (fun m =>
      m.session_id = sid ∧ now - time_window_minutes * 60 ≤ m.timestamp) :=
    List.mem_filter.mpr ⟨hmem, by simp [hsid, hts]⟩
  constructor
  · unfold TemporalContextGraph.get_temporal_context
    rw [countP_filterMap_eq]
    unfold TemporalContextGraph.queryRows
    rw [List.countP_flatten, List.map_map]
    have hperm : ((nodes.filter (fun m =>
          m.session_id = sid ∧
            now - time_window_minutes * 60 ≤ m.timestamp)).insertionSort
        TemporalContextGraph.newerEq).Perm
        (nodes.filter (fun m =>
          m.session_id = sid ∧ now - time_window_minutes * 60 ≤ m.timestamp)) :=
      List.perm_insertionSort _ _
    rw [(hperm.map _).sum_eq]
    have hnodupInW : (nodes.filter (fun m =>
        m.session_id = sid ∧
          now - time_window_minutes * 60 ≤ m.timestamp)).Nodup :=
      (List.filter_sublist nodes).nodup (List.Nodup.of_map _ hnodup)
    rw [sum_map_eq_of_unique _ _ n hnodupInW hninW ?hzero]
    case hzero =>
      intro m hm hmn
      have hmnodes : m ∈ nodes := (List.mem_filter.mp hm).1
      have hmid : ¬ m.id = n.id := fun hid => hmn (hinj hmnodes hmem hid)
      simp only [Function.comp]
      rw [List.countP_eq_zero]
      intro row hrow
      have hrm : row.1 = m := mem_joinRows hrow
      cases hdr : TemporalContextGraph.decodeRow key row with
      | none => simp [hdr]
      | some r =>
          have := (decodeRow_spec hdr).1
          simp [hdr, this, hrm, hmid]
    · simp only [Function.comp]
      have hall : ∀ row ∈ TemporalContextGraph.joinRows edges n,
          (((TemporalContextGraph.decodeRow key row).map
            (fun r => decide (r.id = n.id))).getD false) = true := by
        intro row hrow
        have hrn : row.1 = n := mem_joinRows hrow
        have hdecrow : EncryptionService.decrypt_context key
            row.1.encrypted_payload = .ok p := by rw [hrn]; exact hdec
        rw [decodeRow_of_ok hdecrow]
        simp [hrn]
      rw [List.countP_eq_length.mpr hall]
      exact joinRows_length edges n
  · intro hk r hr hid
    unfold TemporalContextGraph.get_temporal_context at hr
    obtain ⟨row, hrow, hdecode⟩ := List.mem_filterMap.mp hr
    have hq := mem_queryRows hrow
    have hspec := decodeRow_spec hdecode
    have hrowid : row.1.id = n.id := by rw [← hspec.1, hid]
    have hrown : row.1 = n := hinj hq.1 hmem hrowid
    have hgroup := mem_queryRows_group hrow
    rw [hrown] at hgroup
    have hfilter : edges.filter (fun e => e.from_node_id = n.id) = [] :=
      List.length_eq_zero.mp hk
    unfold TemporalContextGraph.joinRows at hgroup
    rw [hfilter] at hgroup
    simp at hgroup
    rw [hgroup] at hspec
    exact ⟨hspec.2.2.2.1, hspec.2.2.2.2⟩

/-- C9 witness: in the demo store the readable node with id 2 has two
outgoing edges and therefore contributes two result entries. -/
theorem windowed_query_row_multiplicity_witness :
    (TemporalContextGraph.get_temporal_context demoNodes demoEdges 7 "s" 100
        1).countP (fun r => r.id = demoNodeB.id) =
      if (demoEdges.filter
          (fun e => e.from_node_id = demoNodeB.id)).length = 0 then 1
      else (demoEdges.filter (fun e => e.from_node_id = demoNodeB.id)).length :=
  (windowed_query_row_multiplicity demoNodes demoEdges 7 "s" 100 1 demoNodeB
    (Json.str "b") (by decide)
    (List.Mem.tail _ (List.Mem.head _)) rfl (by decide) rfl).1

/-- The focus score of the above-threshold demo metrics is 0.9. -/
theorem focusScore_high : FlowOrchestrator.focusScore flowMetricsHigh = 9 / 10 := by
  norm_num [FlowOrchestrator.focusScore, flowMetricsHigh, max_def]

/-- The focus score of the below-threshold demo metrics is 0.2. -/
theorem focusScore_low : FlowOrchestrator.focusScore flowMetricsLow = 1 / 5 := by
  norm_num [FlowOrchestrator.focusScore, flowMetricsLow, max_def]

/-- The demo metrics with score 0.9 count as in-flow. -/
theorem isInFlow_high : FlowOrchestrator.isInFlow flowMetricsHigh = true := by
  have h1 : (7 : ℚ) / 10 < FlowOrchestrator.focusScore flowMetricsHigh := by
    rw [focusScore_high]; norm_num
  have h2 : (3 : ℚ) / 5 < flowMetricsHigh.rhythm := by
    norm_num [flowMetricsHigh]
  simp [FlowOrchestrator.isInFlow, h1, h2]

/-- The demo metrics with score 0.2 do not count as in-flow. -/
theorem isInFlow_low : FlowOrchestrator.isInFlow flowMetricsLow = false := by
  have h : ¬ ((7 : ℚ) / 10 < FlowOrchestrator.focusScore flowMetricsLow) := by
    rw [focusScore_low]; norm_num
  simp [FlowOrchestrator.isInFlow, h]

/-- C1: over the evaluation sequence with flow scores [0.9, 0.9, 0.2]
(threshold 0.7) at times t1 <= t2 <= t3, the orchestrator fires exactly
one flow-start trigger — at the first evaluation, before the third —
requesting notification snoozing, nothing at the second evaluation, and
exactly one flow-end trigger at the third, persisting a flow_end summary
event that carries the elapsed time between the first and third
evaluations (in whole minutes) and the peak focus score 0.9, and
requesting notification re-enabling. -/
theorem flow_transition_triggers (sid : String) (t1 t2 t3 : ℕ)
    (h12 : t1 ≤ t2) (h23 : t2 ≤ t3) :
    (FlowOrchestrator.detect_flow_state none sid t1 flowMetricsHigh).2 =
      [.persistEvent "flow_start" none none, .snoozeNotifications true] ∧
    (FlowOrchestrator.detect_flow_state
        (some (FlowOrchestrator.detect_flow_state none sid t1 flowMetricsHigh).1)
        sid t2 flowMetricsHigh).2 = [] ∧
    (FlowOrchestrator.detect_flow_state
        (some (FlowOrchestrator.detect_flow_state
            (some (FlowOrchestrator.detect_flow_state none sid t1
              flowMetricsHigh).1) sid t2 flowMetricsHigh).1)
        sid t3 flowMetricsLow).2 =
      [.persistEvent "flow_end" (some ((t3 - t1) / 60)) (some (9 / 10)),
       .snoozeNotifications false] ∧
    (FlowOrchestrator.runFlow sid none
        [(t1, flowMetricsHigh), (t2, flowMetricsHigh), (t3, flowMetricsLow)]).2 =
      [.persistEvent "flow_start" none none, .snoozeNotifications true,
       .persistEvent "flow_end" (some ((t3 - t1) / 60)) (some (9 / 10)),
       .snoozeNotifications false] := by
  refine ⟨?_, ?_, ?_, ?_⟩ <;>
    simp [FlowOrchestrator.detect_flow_state, FlowOrchestrator.runFlow,
      isInFlow_high, isInFlow_low, FlowOrchestrator.trigger_flow_start,
      FlowOrchestrator.trigger_flow_end, focusScore_high, focusScore_low]

/-- C1 witness: evaluations at times 0, 60 and 600 seconds produce one
start trigger, one end trigger, and a reported duration of 10 minutes. -/
theorem flow_transition_triggers_witness :
    (FlowOrchestrator.runFlow "dev" none
        [(0, flowMetricsHigh), (60, flowMetricsHigh), (600, flowMetricsLow)]).2 =
      [.persistEvent "flow_start" none none, .snoozeNotifications true,
       .persistEvent "flow_end" (some ((600 - 0) / 60)) (some (9 / 10)),
       .snoozeNotifications false] :=
  (flow_transition_triggers "dev" 0 60 600 (by norm_num) (by norm_num)).2.2.2
